import Mathlib

/-!
# WindyProUltra desktop background process: a shallow embedding

This file embeds the Electron main process of the WindyProUltra desktop
client (src/client/desktop/main.js) and proves properties of its
recording state machine, window management, hotkey registration,
settings persistence and IPC handlers.

The embedding models the mutable module-level state of main.js
(the electron-store instance, the mainWindow handle, the isRecording
flag) as an explicit state record, and each handler or function as a
state transformer. Console output, messages sent to the renderer via
webContents.send, and the system clipboard are tracked in the state so
that side effects become observable.
-/

/-- JavaScript values as they occur in this program: strings, numbers
(all integral here), booleans, and plain objects represented as ordered
field lists. -/
inductive JSVal where
  | str  : String → JSVal
  | num  : Int → JSVal
  | bool : Bool → JSVal
  | obj  : List (String × JSVal) → JSVal

/-- Lookup of a field in an object field list (first occurrence wins). -/
def objGet : List (String × JSVal) → String → Option JSVal
  | [], _ => none
  | (k, v) :: rest, key => if k = key then some v else objGet rest key

/-- Functional update of a field in an object field list; appends the
field if absent. -/
def objSet : List (String × JSVal) → String → JSVal → List (String × JSVal)
  | [], key, v => [(key, v)]
  | (k, w) :: rest, key, v =>
      if k = key then (key, v) :: rest else (k, w) :: objSet rest key v

/-- Navigation along a dot-path, as electron-store does for keys such as
server.host: each segment selects a field of the current object. -/
def getPath : JSVal → List String → Option JSVal
  | v, [] => some v
  | JSVal.obj fields, seg :: rest =>
      match objGet fields seg with
      | some v => getPath v rest
      | none => none
  | _, _ :: _ => none

/-- Writing along a dot-path, creating intermediate objects where the
path runs off the existing document, as electron-store set does. -/
def setPath : Option JSVal → List String → JSVal → JSVal
  | _, [], v => v
  | some (JSVal.obj fields), seg :: rest, v =>
      JSVal.obj (objSet fields seg (setPath (objGet fields seg) rest v))
  | _, seg :: rest, v =>
      JSVal.obj [(seg, setPath none rest v)]

/-- Writing along a dot-path into the top-level field list of the store
document. An empty path leaves the document unchanged (unreachable for
the non-empty keys this program uses). -/
def setFields (fields : List (String × JSVal)) : List String → JSVal → List (String × JSVal)
  | [], _ => fields
  | seg :: rest, v => objSet fields seg (setPath (objGet fields seg) rest v)

/-- One step of splitting a key into its dot-separated segments: a dot
opens a new segment, any other character extends the current one. -/
def splitStep (c : Char) (acc : List (List Char)) : List (List Char) :=
  if c = '.' then [] :: acc
  else match acc with
    | [] => [[c]]
    | g :: gs => (c :: g) :: gs

/-- Splits a store key into its dot-separated segments, the path
notation of electron-store ("server.host" into server then host). -/
def splitPath (key : String) : List String :=
  (key.data.foldr splitStep [[]]).map fun cs => String.mk cs

/-- The electron-store instance: a persisted document, held as its
top-level field list. -/
structure ElectronStore where
  root : List (String × JSVal)

/-- Dot-path read returning the raw lookup result, the semantic core of
store.get. -/
def ElectronStore.getOpt (s : ElectronStore) (key : String) : Option JSVal :=
  getPath (JSVal.obj s.root) (splitPath key)

/-- store.get(key, default): the persisted value at the dot-path key, or
the default when absent. -/
def ElectronStore.get (s : ElectronStore) (key : String) (d : JSVal) : JSVal :=
  (s.getOpt key).getD d

/-- store.set(key, value): persists value under the dot-path key,
overwriting any prior value. -/
def ElectronStore.set (s : ElectronStore) (key : String) (v : JSVal) : ElectronStore :=
  ⟨setFields s.root (splitPath key) v⟩

/-- A BrowserWindow instance. The id distinguishes instances: each call
of the BrowserWindow constructor yields a fresh one. Bounds come from
the options object passed at construction. -/
structure BrowserWindow where
  id : Nat
  x : Int
  y : Int
  width : Int
  height : Int
  visible : Bool
deriving DecidableEq, Repr

/-- The module-level state of main.js plus the observable effect
channels: store and mainWindow and isRecording are the three mutable
bindings of the module; allWindows models BrowserWindow.getAllWindows;
nextWindowId is the allocator for fresh window instances; bindings are
the successfully registered global shortcut combinations; sent is the
ordered log of webContents.send calls (channel, payload); clipboard is
the system clipboard text; log is the ordered console output. -/
structure MainState where
  store : ElectronStore
  mainWindow : Option BrowserWindow
  allWindows : List BrowserWindow
  nextWindowId : Nat
  isRecording : Bool
  bindings : List String
  sent : List (String × JSVal)
  clipboard : Option String
  log : List String

/-- The state at process start: empty store (no prior run persisted
anything), no window, recording off, nothing registered, sent or
logged. -/
def initialState : MainState :=
  { store := ⟨[]⟩
    mainWindow := none
    allWindows := []
    nextWindowId := 0
    isRecording := false
    bindings := []
    sent := []
    clipboard := none
    log := [] }

/-- createMainWindow: constructs a new BrowserWindow sized 400 by 600 at
position (width - 420, height - 620) of the primary display work area,
assigns it to mainWindow, and registers its closed handler. There is no
guard: the construction and assignment happen unconditionally. -/
def createMainWindow (workW workH : Int) (s : MainState) : MainState :=
  let w : BrowserWindow :=
    { id := s.nextWindowId
      x := workW - 420
      y := workH - 620
      width := 400
      height := 600
      visible := true }
  { s with
      mainWindow := some w
      allWindows := s.allWindows ++ [w]
      nextWindowId := s.nextWindowId + 1 }

/-- The activate handler installed in app.whenReady: recreates the main
window only when BrowserWindow.getAllWindows() is empty. -/
def onActivate (workW workH : Int) (s : MainState) : MainState :=
  if s.allWindows.length = 0 then createMainWindow workW workH s else s

/-- The ternary in toggleRecording mapping the boolean to the semantic
state label. -/
def stateLabel (b : Bool) : String :=
  if b then "listening" else "idle"

/-- toggleRecording: flips isRecording, logs the new state, and, when a
window handle is present, sends the raw boolean on toggle-recording and
the label on state-change, in that order. -/
def toggleRecording (s : MainState) : MainState :=
  let b := !s.isRecording
  let s1 := { s with
                isRecording := b
                log := s.log ++ ["Recording state: " ++ toString b] }
  if s1.mainWindow.isSome then
    { s1 with sent := s1.sent ++
        [("toggle-recording", JSVal.bool b),
         ("state-change", JSVal.str (stateLabel b))] }
  else s1

/-- n successive calls of toggleRecording. -/
def toggleN : Nat → MainState → MainState
  | 0, s => s
  | n + 1, s => toggleRecording (toggleN n s)

/-- The RecordingState enum of the specification: Idle and Listening. -/
inductive RecordingState where
  | Idle : RecordingState
  | Listening : RecordingState
deriving DecidableEq, Repr

/-- The abstraction from the isRecording boolean of the code to the
RecordingState of the specification. -/
def recState (s : MainState) : RecordingState :=
  if s.isRecording then RecordingState.Listening else RecordingState.Idle

/-- The hotkey combination bound to toggleRecording. -/
def recCombo : String := "CommandOrControl+Shift+Space"

/-- The hotkey combination bound to the window-visibility toggle. -/
def winCombo : String := "CommandOrControl+Shift+W"

/-- registerHotkeys: attempts both registrations against the OS hotkey
facility (modelled as the acceptance function os). The result of the
first registration is checked and its failure logged; the result of the
second is captured but never checked, so its failure is not reported.
The third (paste) combination is intentionally left unbound. -/
def registerHotkeys (os : String → Bool) (s : MainState) : MainState :=
  let retRecord := os recCombo
  let s1 := if retRecord then { s with bindings := s.bindings ++ [recCombo] } else s
  let s2 := if retRecord then s1
            else { s1 with log := s1.log ++ ["Registration of Ctrl+Shift+Space failed"] }
  let retWindow := os winCombo
  if retWindow then { s2 with bindings := s2.bindings ++ [winCombo] } else s2

/-- The get-server-config request handler: reads server.host and
server.port from the store with defaults 127.0.0.1 and 9876, applied
independently per field. -/
def handleGetServerConfig (s : MainState) : JSVal :=
  JSVal.obj
    [("host", s.store.get "server.host" (JSVal.str "127.0.0.1")),
     ("port", s.store.get "server.port" (JSVal.num 9876))]

/-- The get-settings request handler: reads the whole-document settings
key, defaulting to the empty object. -/
def handleGetSettings (s : MainState) : JSVal :=
  s.store.get "settings" (JSVal.obj [])

/-- The update-settings one-way handler: persists the incoming mapping
under the settings key. -/
def handleUpdateSettings (settings : JSVal) (s : MainState) : MainState :=
  { s with store := s.store.set "settings" settings }

/-- The console line printed by the transcript-for-paste handler. -/
def pasteLogLine (text : String) : String :=
  "Transcript copied to clipboard for paste: " ++ text.take 20 ++ "..."

/-- The transcript-for-paste one-way handler: when the payload is truthy
(a non-empty string), writes it to the system clipboard and logs;
otherwise does nothing. No reply is sent. -/
def handleTranscriptForPaste (text : String) (s : MainState) : MainState :=
  if text ≠ "" then
    { s with clipboard := some text, log := s.log ++ [pasteLogLine text] }
  else s

theorem split_settings : splitPath "settings" = ["settings"] := rfl

theorem split_server_host : splitPath "server.host" = ["server", "host"] := rfl

theorem split_server_port : splitPath "server.port" = ["server", "port"] := rfl

theorem objGet_objSet_self (l : List (String × JSVal)) (k : String) (v : JSVal) :
    objGet (objSet l k v) k = some v := by
  induction l with
  | nil => simp [objGet, objSet]
  | cons hd tl ih =>
      obtain ⟨k', w⟩ := hd
      by_cases h : k' = k
      · simp [objGet, objSet, h]
      · simp [objGet, objSet, h, ih]

theorem objGet_objSet_ne (l : List (String × JSVal)) (k k' : String) (v : JSVal)
    (h : k ≠ k') : objGet (objSet l k v) k' = objGet l k' := by
  induction l with
  | nil => simp [objGet, objSet, h]
  | cons hd tl ih =>
      obtain ⟨k'', w⟩ := hd
      by_cases h2 : k'' = k
      · subst h2
        simp [objGet, objSet, h]
      · simp [objGet, objSet, h2, ih]

theorem toggleRecording_isRecording (s : MainState) :
    (toggleRecording s).isRecording = !s.isRecording := by
  unfold toggleRecording
  by_cases h : s.mainWindow.isSome <;> simp [h]

theorem toggleN_isRecording (n : Nat) (s : MainState) :
    (toggleN n s).isRecording = xor (decide (n % 2 = 1)) s.isRecording := by
  induction n with
  | zero => simp [toggleN]
  | succ n ih =>
      rw [toggleN, toggleRecording_isRecording, ih]
      rcases Nat.mod_two_eq_zero_or_one n with h | h <;>
        simp [h, Nat.succ_mod_two_eq_one_iff, Nat.succ_mod_two_eq_zero_iff]

/-- Claim C1: starting from the initial state (Idle), after an odd
number of toggleRecording calls the recording state is Listening, and
after an even number it is Idle. -/
theorem recording_state_alternates (n : Nat) :
    recState (toggleN n initialState) =
      if n % 2 = 1 then RecordingState.Listening else RecordingState.Idle := by
  rcases Nat.mod_two_eq_zero_or_one n with hp | hp <;>
    simp [recState, toggleN_isRecording, initialState, hp]

/-- Claim C2: toggleRecording flips the state unconditionally; when a
window handle is live it then appends exactly two messages to the send
log, first the raw boolean on toggle-recording, then the label
determined by the new state on state-change; when no window is live the
send log is unchanged. -/
theorem toggleRecording_emits (s : MainState) :
    (toggleRecording s).isRecording = !s.isRecording ∧
    (toggleRecording s).sent = s.sent ++
      (if s.mainWindow.isSome then
        [("toggle-recording", JSVal.bool (toggleRecording s).isRecording),
         ("state-change", JSVal.str
            (if recState (toggleRecording s) = RecordingState.Listening
             then "listening" else "idle"))]
       else []) := by
  refine ⟨toggleRecording_isRecording s, ?_⟩
  unfold toggleRecording recState stateLabel
  by_cases h : s.mainWindow.isSome <;> by_cases hb : s.isRecording <;>
    simp [h, hb]

/-- Claim C7: window creation places the window at position
(W - 420, H - 620) with size (400, 600), W and H being the work area
size of the primary display. -/
theorem createMainWindow_bounds (workW workH : Int) (s : MainState) :
    (createMainWindow workW workH s).mainWindow.map
        (fun w => (w.x, w.y, w.width, w.height)) =
      some (workW - 420, workH - 620, 400, 600) := by
  simp [createMainWindow]

/-- A state in which one window already exists: the state right after
the startup window creation on a 1920 by 1080 work area. -/
def c3State : MainState := createMainWindow 1920 1080 initialState

/-- Claim C3 counterexample: calling createMainWindow while a window
already exists is not a no-op — a new window is instantiated and the
handle changes. -/
theorem createMainWindow_not_noop :
    ¬ ((createMainWindow 1920 1080 c3State).allWindows.length =
          c3State.allWindows.length ∧
       (createMainWindow 1920 1080 c3State).mainWindow = c3State.mainWindow) := by
  decide

/-- Claim C3 amended: createMainWindow unconditionally instantiates a
fresh window and replaces the handle, even when a window already
exists; the no-op-when-a-window-exists behaviour holds only at the
activate call site, whose handler invokes creation only when no window
exists. -/
theorem createMainWindow_unconditional (workW workH : Int) (s : MainState) :
    (createMainWindow workW workH s).allWindows.length =
        s.allWindows.length + 1 ∧
    (createMainWindow workW workH s).mainWindow =
      some { id := s.nextWindowId, x := workW - 420, y := workH - 620,
             width := 400, height := 600, visible := true } ∧
    (s.allWindows ≠ [] → onActivate workW workH s = s) := by
  refine ⟨by simp [createMainWindow], by simp [createMainWindow], fun h => ?_⟩
  unfold onActivate
  simp [h]

/-- Claim C3 amended, instantiated: from the post-startup state, a
second creation call adds a window and swaps the handle, while the
activate handler leaves the state alone. -/
theorem createMainWindow_unconditional_witness :
    (createMainWindow 1920 1080 c3State).allWindows.length =
        c3State.allWindows.length + 1 ∧
    (createMainWindow 1920 1080 c3State).mainWindow =
      some { id := c3State.nextWindowId, x := 1920 - 420, y := 1080 - 620,
             width := 400, height := 600, visible := true } ∧
    onActivate 1920 1080 c3State = c3State :=
  ⟨(createMainWindow_unconditional 1920 1080 c3State).1,
   (createMainWindow_unconditional 1920 1080 c3State).2.1,
   (createMainWindow_unconditional 1920 1080 c3State).2.2 (by decide)⟩

/-- Claim C4 counterexample: when the OS rejects the window-visibility
combination, the combination is left unbound but nothing is logged —
the failure goes unreported. -/
theorem registerHotkeys_winCombo_failure_silent :
    (fun c => c != winCombo) winCombo = false ∧
    winCombo ∉ (registerHotkeys (fun c => c != winCombo) initialState).bindings ∧
    (registerHotkeys (fun c => c != winCombo) initialState).log = [] := by
  decide

/-- Claim C4 amended: a failed registration leaves its combination
unbound for both default bindings, but only a failure of the
toggle-recording binding is logged; a failure of the
toggle-window-visibility binding is not reported. -/
theorem registerHotkeys_spec (os : String → Bool) (s : MainState) :
    (registerHotkeys os s).bindings =
      s.bindings ++ (if os recCombo then [recCombo] else []) ++
        (if os winCombo then [winCombo] else []) ∧
    (registerHotkeys os s).log =
      s.log ++ (if os recCombo then []
                else ["Registration of Ctrl+Shift+Space failed"]) := by
  unfold registerHotkeys
  by_cases h1 : os recCombo <;> by_cases h2 : os winCombo <;> simp [h1, h2]

/-- Claim C5: get-settings right after update-settings(S) returns
exactly S, and get-settings on a store never written returns the empty
mapping. -/
theorem get_settings_after_update (S : JSVal) (s : MainState) :
    handleGetSettings (handleUpdateSettings S s) = S ∧
    (s.store.getOpt "settings" = none → handleGetSettings s = JSVal.obj []) := by
  constructor
  · simp [handleGetSettings, handleUpdateSettings, ElectronStore.get,
          ElectronStore.getOpt, ElectronStore.set, split_settings, setFields,
          setPath, getPath, objGet_objSet_self]
  · intro h
    simp [handleGetSettings, ElectronStore.get, h]

/-- Claim C5 instantiated: storing a concrete settings value and
reading it back returns it, and the fresh store reads as the empty
mapping. -/
theorem get_settings_after_update_witness :
    handleGetSettings (handleUpdateSettings (JSVal.str "v") initialState) =
        JSVal.str "v" ∧
    handleGetSettings initialState = JSVal.obj [] :=
  ⟨(get_settings_after_update (JSVal.str "v") initialState).1,
   (get_settings_after_update (JSVal.str "v") initialState).2 rfl⟩

/-- Claim C6: with no server configuration persisted, get-server-config
returns host 127.0.0.1 and port 9876. -/
theorem get_server_config_defaults (s : MainState)
    (hh : s.store.getOpt "server.host" = none)
    (hp : s.store.getOpt "server.port" = none) :
    handleGetServerConfig s =
      JSVal.obj [("host", JSVal.str "127.0.0.1"), ("port", JSVal.num 9876)] := by
  simp [handleGetServerConfig, ElectronStore.get, hh, hp]

/-- Claim C6 instantiated at the fresh store. -/
theorem get_server_config_defaults_witness :
    handleGetServerConfig initialState =
      JSVal.obj [("host", JSVal.str "127.0.0.1"), ("port", JSVal.num 9876)] :=
  get_server_config_defaults initialState rfl rfl

theorem getOpt_set_settings_disjoint (st : ElectronStore) (S : JSVal)
    (seg : String) (rest : List String) (h : seg ≠ "settings") :
    getPath (JSVal.obj (st.set "settings" S).root) (seg :: rest) =
      getPath (JSVal.obj st.root) (seg :: rest) := by
  unfold ElectronStore.set
  rw [split_settings]
  simp only [setFields, getPath]
  rw [objGet_objSet_ne _ _ _ _ (Ne.symm h)]

/-- Claim C9: update-settings writes only the settings key, which is
disjoint from the server.host and server.port paths, so the
get-server-config response is unchanged by any update-settings call. -/
theorem update_settings_preserves_server_config (S : JSVal) (s : MainState) :
    handleGetServerConfig (handleUpdateSettings S s) = handleGetServerConfig s := by
  simp only [handleGetServerConfig, handleUpdateSettings, ElectronStore.get,
             ElectronStore.getOpt, split_server_host, split_server_port]
  rw [getOpt_set_settings_disjoint _ _ _ _ (by decide),
      getOpt_set_settings_disjoint _ _ _ _ (by decide)]

/-- Claim C10: the get-server-config defaults apply per field: a stored
host with no stored port yields that host with port 9876, and a stored
port with no stored host yields host 127.0.0.1 with that port. -/
theorem get_server_config_per_field (s : MainState) :
    (∀ v, s.store.getOpt "server.host" = some v →
        s.store.getOpt "server.port" = none →
        handleGetServerConfig s =
          JSVal.obj [("host", v), ("port", JSVal.num 9876)]) ∧
    (∀ v, s.store.getOpt "server.host" = none →
        s.store.getOpt "server.port" = some v →
        handleGetServerConfig s =
          JSVal.obj [("host", JSVal.str "127.0.0.1"), ("port", v)]) := by
  constructor <;> intro v h1 h2 <;>
    simp [handleGetServerConfig, ElectronStore.get, h1, h2]

/-- A store holding only a server host. -/
def hostOnlyState : MainState :=
  { initialState with
      store := ⟨[("server", JSVal.obj [("host", JSVal.str "10.0.0.8")])]⟩ }

/-- A store holding only a server port. -/
def portOnlyState : MainState :=
  { initialState with
      store := ⟨[("server", JSVal.obj [("port", JSVal.num 7777)])]⟩ }

/-- Claim C10 instantiated at a host-only store and a port-only store. -/
theorem get_server_config_per_field_witness :
    handleGetServerConfig hostOnlyState =
      JSVal.obj [("host", JSVal.str "10.0.0.8"), ("port", JSVal.num 9876)] ∧
    handleGetServerConfig portOnlyState =
      JSVal.obj [("host", JSVal.str "127.0.0.1"), ("port", JSVal.num 7777)] :=
  ⟨(get_server_config_per_field hostOnlyState).1 _ rfl rfl,
   (get_server_config_per_field portOnlyState).2 _ rfl rfl⟩

/-- A state in which the clipboard already holds earlier text. -/
def priorClipboardState : MainState :=
  { initialState with clipboard := some "prior" }

/-- Claim C8 counterexample: the empty string received on
transcript-for-paste is not placed on the clipboard — the clipboard
keeps its prior content. -/
theorem transcript_empty_not_placed :
    (handleTranscriptForPaste "" priorClipboardState).clipboard = some "prior" ∧
    (handleTranscriptForPaste "" priorClipboardState).clipboard ≠ some "" := by
  decide

/-- Claim C8 amended: every non-empty text string received on
transcript-for-paste is placed on the system clipboard and no message
is sent back; an empty payload leaves the state unchanged. -/
theorem transcript_for_paste_spec (text : String) (s : MainState) :
    (text ≠ "" → (handleTranscriptForPaste text s).clipboard = some text) ∧
    handleTranscriptForPaste "" s = s ∧
    (handleTranscriptForPaste text s).sent = s.sent := by
  refine ⟨fun h => by simp [handleTranscriptForPaste, h],
          by simp [handleTranscriptForPaste], ?_⟩
  unfold handleTranscriptForPaste
  by_cases h : text = "" <;> simp [h]

/-- Claim C8 amended, instantiated: a non-empty transcript lands on the
clipboard. -/
theorem transcript_for_paste_spec_witness :
    (handleTranscriptForPaste "hello" initialState).clipboard = some "hello" :=
  (transcript_for_paste_spec "hello" initialState).1 (by decide)
